import Mathlib

/-!
Shallow embedding of the client-side request/response orchestration of the
ai-engineer-challenge front end pages.

The repository is a set of near-duplicate React pages.  Each user action is an
async handler that reads the component state, optionally issues one HTTP
request, and writes the component state back.  We model each handler as a pure
function from the pre-state and the outcome of the awaited request (a
structurally successful JSON body, or a transport failure covering a rejected
request / malformed body) to the post-state, paired with the list of requests
the handler issued.

JavaScript truthiness on string-valued JSON fields (present / absent /
empty) is modelled by Option String together with jsTruthy.
-/

/-- JavaScript String.prototype.trim: drop leading and trailing whitespace.
Written over the character list so that it evaluates in the kernel. -/
def jsTrim (s : String) : String :=
  String.mk (((s.data.dropWhile Char.isWhitespace).reverse.dropWhile Char.isWhitespace).reverse)

/-- A JSON value occurring in a request body of this app: a string or null. -/
inductive JsonVal where
  | null : JsonVal
  | str : String → JsonVal
deriving DecidableEq

/-- JavaScript truthiness of an optional string field: an absent field
(undefined) and the empty string are falsy, every other string is truthy. -/
def jsTruthy : Option String → Bool
  | none => false
  | some s => s != ""

/-- An HTTP request as the pages issue it: target URL and JSON body
modelled as an association list of fields. -/
structure AskRequest where
  url : String
  body : List (String × JsonVal)
deriving DecidableEq

/-- Outcome of an awaited ask request: a structurally successful JSON body
with optional answer and error string fields, or a transport failure
(network error, malformed body, rejected request). -/
inductive AskOutcome where
  | response : Option String → Option String → AskOutcome
  | transportFailure : AskOutcome
deriving DecidableEq

/-- Component state of the Home page (src/apps/frontend/src/app/page.tsx):
question, answer, apiKey, model and loading useState hooks.  The copied and
showSettings hooks do not interact with the claims and are omitted. -/
structure HomeState where
  question : String
  answer : String
  apiKey : String
  model : String
  loading : Bool
deriving DecidableEq

/-- The localhost fallback of the configured base URL
(process.env.NEXT_PUBLIC_API_URL default). -/
def API_BASE : String := "http://localhost:8000"

/-- The fixed transport-failure fallback message of askQuestion in
src/apps/frontend/src/app/page.tsx (first variant). -/
def askFallback : String :=
  "⚠️ Failed to reach backend. Make sure it\x27s running on localhost:8000"

/-- The JSON body of the ask request built by askQuestion:
JSON.stringify of q, model, api_key with api_key = apiKey || null. -/
def askBody (s : HomeState) : List (String × JsonVal) :=
  [("q", JsonVal.str s.question),
   ("model", JsonVal.str s.model),
   ("api_key", if s.apiKey = "" then JsonVal.null else JsonVal.str s.apiKey)]

/-- The single request issued by askQuestion: POST API_BASE/ask. -/
def askRequestOf (s : HomeState) : AskRequest :=
  { url := API_BASE ++ "/ask", body := askBody s }

/-- askQuestion of src/apps/frontend/src/app/page.tsx (same control flow,
with a shorter fallback string, in the src/unnamed/part_000 Home variant):
early return on a blank question;
otherwise set loading, clear the answer, issue one request, then set the
answer from data.answer if truthy, else from data.error if truthy, else leave
it; on a caught transport failure set the fixed fallback message; finally
clear loading. -/
def askQuestion (s : HomeState) (o : AskOutcome) : HomeState × List AskRequest :=
  if jsTrim s.question = "" then (s, [])
  else
    let s1 : HomeState := { s with loading := true, answer := "" }
    match o with
    | AskOutcome.response ans err =>
        let s2 : HomeState :=
          if jsTruthy ans then { s1 with answer := ans.getD "" }
          else if jsTruthy err then { s1 with answer := err.getD "" }
          else s1
        ({ s2 with loading := false }, [askRequestOf s])
    | AskOutcome.transportFailure =>
        ({ s1 with answer := askFallback, loading := false }, [askRequestOf s])

/-- Metadata of a selected browser File: name, MIME type and size. -/
structure FileMeta where
  name : String
  mimeType : String
  size : Nat
deriving DecidableEq

/-- Component state of the RAG page (src/unnamed/part_003, and the RAGChat
component appended in src/apps/frontend/src/app/layout.tsx apart from its
chat handler): file, question,
answer, loading, uploadStatus and isUploaded useState hooks. -/
structure RagState where
  file : Option FileMeta
  question : String
  answer : String
  loading : Bool
  uploadStatus : String
  isUploaded : Bool
deriving DecidableEq

/-- Outcome of an awaited axios upload request: a resolved (HTTP 2xx) JSON
body with its success indicator, optional error string and optional chunk
count, or a transport failure (rejected promise). -/
inductive UploadOutcome where
  | response : Bool → Option String → Option Nat → UploadOutcome
  | transportFailure : UploadOutcome
deriving DecidableEq

/-- Outcome of an awaited axios RAG chat request. -/
inductive ChatOutcome where
  | response : Option String → Option String → ChatOutcome
  | transportFailure : ChatOutcome
deriving DecidableEq

/-- Outcome of the awaited axios reset request. -/
inductive ResetOutcome where
  | ok : ResetOutcome
  | transportFailure : ResetOutcome
deriving DecidableEq

/-- The success message of handleFileUpload in src/unnamed/part_003, built
from response.data.chunks_count || 0. -/
def uploadSuccessMsg (n : Nat) : String :=
  "PDF uploaded successfully! Created " ++ toString n ++
    " chunks. You can now ask questions about it."

/-- The fixed transport-failure fallback message of handleFileUpload
(identical in src/unnamed/part_003 and the layout.tsx RAGChat variant). -/
def uploadFallback : String := "Error uploading PDF. Please try again."

/-- handleFileUpload of src/unnamed/part_003: early return when no file is
selected; otherwise set loading and a progress status and issue one upload
request carrying the file; on a resolved body with success truthy set the
success status and isUploaded := true, on a resolved body without it set an
Error status (response.data?.error || a default) and isUploaded := false; on
a caught transport failure set the fixed fallback status and
isUploaded := false; finally clear loading.  The second component lists the
files submitted to the upload endpoint. -/
def handleFileUpload (s : RagState) (o : UploadOutcome) : RagState × List FileMeta :=
  match s.file with
  | none => (s, [])
  | some f =>
    let s1 : RagState := { s with loading := true,
                                  uploadStatus := "Uploading and processing PDF..." }
    match o with
    | UploadOutcome.response success err chunks =>
        if success then
          ({ s1 with uploadStatus := uploadSuccessMsg (chunks.getD 0),
                     isUploaded := true, loading := false }, [f])
        else
          let msg : String :=
            "Error: " ++ (if jsTruthy err then err.getD "" else "Unknown upload error")
          ({ s1 with uploadStatus := msg, isUploaded := false, loading := false }, [f])
    | UploadOutcome.transportFailure =>
        ({ s1 with uploadStatus := uploadFallback,
                   isUploaded := false, loading := false }, [f])

/-- The fixed transport-failure fallback message of handleRAGChat
(identical in src/unnamed/part_003 and the layout.tsx RAGChat variant). -/
def chatFallback : String := "Error processing your question. Please try again."

/-- handleRAGChat of src/unnamed/part_003: early return on a blank question;
otherwise set loading, clear the answer, issue one request with the question;
on a resolved body set the answer from a truthy answer field (and clear the
question), else an Error-prefixed form of a truthy error field, else a fixed
no-answer message; on a caught transport failure set the fixed fallback;
finally clear loading.  The second component lists the question payloads of
the issued requests. -/
def handleRAGChat (s : RagState) (o : ChatOutcome) : RagState × List String :=
  if jsTrim s.question = "" then (s, [])
  else
    let s1 : RagState := { s with loading := true, answer := "" }
    match o with
    | ChatOutcome.response ans err =>
        let s2 : RagState :=
          if jsTruthy ans then { s1 with answer := ans.getD "", question := "" }
          else if jsTruthy err then { s1 with answer := "Error: " ++ err.getD "" }
          else { s1 with answer := "Error: No answer received from server" }
        ({ s2 with loading := false }, [s.question])
    | ChatOutcome.transportFailure =>
        ({ s1 with answer := chatFallback, loading := false }, [s.question])

/-- resetRAG of src/unnamed/part_003: await the reset request; on success
clear file, uploadStatus, isUploaded, answer and question; the catch block
only logs, leaving the state untouched. -/
def resetRAG (s : RagState) (o : ResetOutcome) : RagState :=
  match o with
  | ResetOutcome.ok =>
      { s with file := none, uploadStatus := "", isUploaded := false,
               answer := "", question := "" }
  | ResetOutcome.transportFailure => s

/-- handleFileChange of src/unnamed/part_003: when a file is selected and its
MIME type is application/pdf, store it and clear uploadStatus and isUploaded;
otherwise only alert, leaving the state unchanged. -/
def handleFileChange (s : RagState) (selected : Option FileMeta) : RagState :=
  match selected with
  | some f =>
      if f.mimeType = "application/pdf" then
        { s with file := some f, uploadStatus := "", isUploaded := false }
      else s
  | none => s

/-- handleFileUpload of the RAGChat component appended in
src/apps/frontend/src/app/layout.tsx (lines 90-115): same shape as the
part_003 variant, but the resolved branch sets a fixed success status and
isUploaded := true without inspecting the response body, and the catch block
does not touch isUploaded. -/
def handleFileUploadLayout (s : RagState) (o : UploadOutcome) : RagState × List FileMeta :=
  match s.file with
  | none => (s, [])
  | some f =>
    let s1 : RagState := { s with loading := true,
                                  uploadStatus := "Uploading and processing PDF..." }
    match o with
    | UploadOutcome.response _ _ _ =>
        let msg : String := "PDF uploaded successfully! You can now ask questions about it."
        ({ s1 with uploadStatus := msg, isUploaded := true, loading := false }, [f])
    | UploadOutcome.transportFailure =>
        ({ s1 with uploadStatus := uploadFallback, loading := false }, [f])

/-- Component state of the layout.tsx RAGChat component for its chat
handler: the answer hook can be set to the undefined answer field of a
response, so it is an Option String (none = undefined). -/
structure RagStateLayout where
  file : Option FileMeta
  question : String
  answer : Option String
  loading : Bool
  uploadStatus : String
  isUploaded : Bool
deriving DecidableEq

/-- handleRAGChat of the layout.tsx RAGChat component (lines 117-136):
early return on a blank question;
otherwise set loading, clear the answer, issue the request, and on a resolved
body set the answer to response.data.answer unconditionally (undefined when
the field is absent) and clear the question; on a caught transport failure
set the fixed fallback; finally clear loading. -/
def handleRAGChatLayout (s : RagStateLayout) (o : ChatOutcome) : RagStateLayout :=
  if jsTrim s.question = "" then s
  else
    let s1 : RagStateLayout := { s with loading := true, answer := some "" }
    match o with
    | ChatOutcome.response ans _ =>
        { s1 with answer := ans, question := "", loading := false }
    | ChatOutcome.transportFailure =>
        { s1 with answer := some chatFallback, loading := false }

/-- The text the layout.tsx RAGChat component renders in the answer slot:
the answer
hook when truthy, nothing otherwise (the answer block is guarded by
answer &&). -/
def displayedAnswerLayout (s : RagStateLayout) : String :=
  if jsTruthy s.answer then s.answer.getD "" else ""

/-- The JSON body of the ask request built by the sendMessage handler
embedded in src/ACTIVITY-1.md: axios.post of q = the trimmed question and a
fixed model, with no api_key field. -/
def sendMessageBody (question : String) : List (String × JsonVal) :=
  [("q", JsonVal.str (jsTrim question)),
   ("model", JsonVal.str "gpt-3.5-turbo")]

/-- Outcome of the awaited clipboard write in copyToClipboard. -/
inductive ClipboardOutcome where
  | ok : ClipboardOutcome
  | failure : ClipboardOutcome
deriving DecidableEq

/-- copyToClipboard of the second Home variant in
src/apps/frontend/src/app/page.tsx: it awaits
navigator.clipboard.writeText with no try/catch, so a rejected write
propagates out of the handler (Except.error); on success it sets
copied := true. -/
def copyToClipboard (o : ClipboardOutcome) : Except Unit Bool :=
  match o with
  | ClipboardOutcome.ok => Except.ok true
  | ClipboardOutcome.failure => Except.error ()

/-- The fixed localStorage key of the credential. -/
def storageKey : String := "OPENAI_API_KEY"

/-- localStorage.setItem on a store modelled as an association list. -/
def setItem (store : List (String × String)) (k v : String) : List (String × String) :=
  (k, v) :: store.filter (fun p => p.1 ≠ k)

/-- localStorage.getItem. -/
def getItem (store : List (String × String)) (k : String) : Option String :=
  store.lookup k

/-- saveApiKey of src/apps/frontend/src/app/page.tsx: if (apiKey) write it
under the fixed key (and alert); an empty credential is not persisted. -/
def saveApiKey (store : List (String × String)) (apiKey : String) :
    List (String × String) :=
  if apiKey = "" then store else setItem store storageKey apiKey

/-- The load routine of src/apps/frontend/src/app/page.tsx (useEffect on
mount): read the fixed key and, if the stored value is truthy, set the
apiKey hook. -/
def loadApiKey (store : List (String × String)) (s : HomeState) : HomeState :=
  match getItem store storageKey with
  | some k => if k = "" then s else { s with apiKey := k }
  | none => s

/-- An event of the part_003 RAG page: a file selection, or a user action
together with the outcome of its awaited request. -/
inductive RagEvent where
  | select : Option FileMeta → RagEvent
  | upload : UploadOutcome → RagEvent
  | chat : ChatOutcome → RagEvent
  | reset : ResetOutcome → RagEvent

/-- One step of the part_003 RAG page: dispatch an event to its handler. -/
def ragStep (s : RagState) : RagEvent → RagState
  | RagEvent.select f => handleFileChange s f
  | RagEvent.upload o => (handleFileUpload s o).1
  | RagEvent.chat o => (handleRAGChat s o).1
  | RagEvent.reset o => resetRAG s o

/-- The initial useState values of the part_003 RAG page. -/
def initRagState : RagState :=
  { file := none, question := "", answer := "", loading := false,
    uploadStatus := "", isUploaded := false }

/-- The state of the part_003 RAG page after a sequence of events from the
initial state. -/
def runRag (evs : List RagEvent) : RagState :=
  evs.foldl ragStep initRagState

/-- The selected-file invariant: the file hook is null or holds a PDF. -/
def fileInv (s : RagState) : Prop :=
  ∀ f, s.file = some f → f.mimeType = "application/pdf"

/-- A concrete Home state used by the witnesses. -/
def homeWitness : HomeState :=
  { question := "hi", answer := "", apiKey := "sk-test", model := "gpt-3.5-turbo",
    loading := false }

/-- A concrete Home state with a whitespace-only question. -/
def homeBlank : HomeState :=
  { question := "  ", answer := "a", apiKey := "", model := "gpt-3.5-turbo",
    loading := false }

/-- A concrete PDF file metadata value. -/
def pdfFile : FileMeta := { name := "doc.pdf", mimeType := "application/pdf", size := 1024 }

/-- A concrete non-PDF file metadata value. -/
def txtFile : FileMeta := { name := "notes.txt", mimeType := "text/plain", size := 10 }

/-- A concrete part_003 RAG state with a selected PDF, a pending question and
the document flag set. -/
def ragReady : RagState :=
  { file := some pdfFile, question := "what", answer := "", loading := false,
    uploadStatus := "", isUploaded := true }

/-- A concrete layout.tsx RAGChat state with a selected PDF, a pending
question and the document flag set. -/
def ragReadyLayout : RagStateLayout :=
  { file := some pdfFile, question := "what", answer := some "", loading := false,
    uploadStatus := "", isUploaded := true }

/-- C1: for the ask, upload and RAG chat handlers, on every outcome of the
awaited request (success, business error in the body, transport failure), the
final state has loading = false — unless the handler took its blank-input
early return, in which case it issued no request and left the state
untouched (so the flag was never set). -/
theorem busy_flag_clear_on_exit (sh : HomeState) (sr : RagState)
    (oa : AskOutcome) (ou : UploadOutcome) (oc : ChatOutcome) :
    ((askQuestion sh oa).1.loading = false ∨ askQuestion sh oa = (sh, []))
    ∧ ((handleFileUpload sr ou).1.loading = false ∨ handleFileUpload sr ou = (sr, []))
    ∧ ((handleRAGChat sr oc).1.loading = false ∨ handleRAGChat sr oc = (sr, [])) := by
  refine ⟨?_, ?_, ?_⟩
  · unfold askQuestion
    by_cases h : jsTrim sh.question = ""
    · right; simp [h]
    · left; cases oa <;> simp [h]
  · unfold handleFileUpload
    cases hf : sr.file with
    | none => right; rfl
    | some f =>
      left
      cases ou with
      | response success err chunks => cases success <;> simp
      | transportFailure => simp
  · unfold handleRAGChat
    by_cases h : jsTrim sr.question = ""
    · right; simp [h]
    · left; cases oc <;> simp [h]

/-- C2: with a non-blank question, askQuestion issues exactly one request, to
the configured ask endpoint, with the question string verbatim in the q
field; with an empty or whitespace-only question it issues no request and
leaves the state (displayed answer and busy flag included) unchanged. -/
theorem ask_request_iff_nonblank (s : HomeState) (o : AskOutcome) :
    (jsTrim s.question ≠ "" →
      (askQuestion s o).2 = [askRequestOf s]
      ∧ (askRequestOf s).url = API_BASE ++ "/ask"
      ∧ (askRequestOf s).body.lookup "q" = some (JsonVal.str s.question))
    ∧ (jsTrim s.question = "" → askQuestion s o = (s, [])) := by
  constructor
  · intro h
    refine ⟨?_, rfl, ?_⟩
    · unfold askQuestion
      cases o <;> simp [h]
    · simp [askRequestOf, askBody, List.lookup]
  · intro h
    unfold askQuestion
    simp [h]

/-- Witness for C2 at concrete inputs: the question "hi" yields exactly the
one expected request, and the whitespace-only question leaves the state
unchanged with no request. -/
theorem ask_request_iff_nonblank_witness :
    (askQuestion homeWitness AskOutcome.transportFailure).2 = [askRequestOf homeWitness]
    ∧ askQuestion homeBlank AskOutcome.transportFailure = (homeBlank, []) := by
  exact ⟨((ask_request_iff_nonblank homeWitness AskOutcome.transportFailure).1
            (by decide)).1,
         (ask_request_iff_nonblank homeBlank AskOutcome.transportFailure).2 (by decide)⟩

/-- C6: on a structurally successful ask response whose body carries answer
field X and no error field, the displayed answer equals X exactly — no
trimming or mutation — including when X is empty or whitespace-only. -/
theorem ask_answer_verbatim (s : HomeState) (x : String)
    (h : jsTrim s.question ≠ "") :
    (askQuestion s (AskOutcome.response (some x) none)).1.answer = x := by
  unfold askQuestion
  by_cases hx : x = ""
  · subst hx; simp [h, jsTruthy]
  · simp [h, jsTruthy, hx]

/-- Witness for C6 at concrete inputs: a whitespace-padded answer and the
empty answer are both displayed verbatim. -/
theorem ask_answer_verbatim_witness :
    (askQuestion homeWitness (AskOutcome.response (some " X ") none)).1.answer = " X "
    ∧ (askQuestion homeWitness (AskOutcome.response (some "") none)).1.answer = "" := by
  exact ⟨ask_answer_verbatim homeWitness " X " (by decide),
         ask_answer_verbatim homeWitness "" (by decide)⟩

/-- Counterexample to C3: starting from a state where the document flag is
true (a previous successful upload) with a file still selected, a transport
failure of the upload action flips the flag to false — the handler does not
leave the document-uploaded flag at its previous value. -/
theorem upload_failure_alters_flag_cex :
    ragReady.isUploaded = true
    ∧ (handleFileUpload ragReady UploadOutcome.transportFailure).1.isUploaded = false := by
  exact ⟨rfl, rfl⟩

/-- C3 (amended): on a transport failure of the upload action with a file
selected, the part_003 handler surfaces the generic fixed fallback message
and sets the document-uploaded flag to false (forcing NoDocument), rather
than leaving the flag unchanged. -/
theorem upload_transport_failure_fallback (s : RagState) (f : FileMeta)
    (h : s.file = some f) :
    (handleFileUpload s UploadOutcome.transportFailure).1.uploadStatus = uploadFallback
    ∧ (handleFileUpload s UploadOutcome.transportFailure).1.isUploaded = false
    ∧ (handleFileUpload s UploadOutcome.transportFailure).1.loading = false := by
  unfold handleFileUpload
  simp [h]

/-- Witness for C3 (amended) at a concrete state. -/
theorem upload_transport_failure_fallback_witness :
    (handleFileUpload ragReady UploadOutcome.transportFailure).1.uploadStatus = uploadFallback
    ∧ (handleFileUpload ragReady UploadOutcome.transportFailure).1.isUploaded = false := by
  have h := upload_transport_failure_fallback ragReady pdfFile rfl
  exact ⟨h.1, h.2.1⟩

/-- A concrete RAG state with a selected PDF and the document flag still
false. -/
def ragSelected : RagState :=
  { file := some pdfFile, question := "", answer := "", loading := false,
    uploadStatus := "", isUploaded := false }

/-- Counterexample to C4: in the layout.tsx RAGChat upload variant, a
resolved (HTTP 2xx) upload response whose body reports success = false still
sets the document-uploaded flag to true, because that variant never inspects
the response body. -/
theorem upload_flag_true_without_success_cex :
    ragSelected.isUploaded = false
    ∧ (handleFileUploadLayout ragSelected
        (UploadOutcome.response false (some "bad") none)).1.isUploaded = true := by
  exact ⟨rfl, rfl⟩

/-- C4 (amended): in the part_003 variant, which checks the response body,
the document flag ends true exactly on an upload outcome that resolved with
the success indicator set; it ends false on a resolved body with
success = false and on transport failure, and a successful reset also
clears it.  The layout.tsx RAGChat variant instead sets the flag true on any
resolved response, success indicator or not. -/
theorem upload_flag_iff_success (s : RagState) (f : FileMeta) (o : UploadOutcome)
    (h : s.file = some f) :
    ((handleFileUpload s o).1.isUploaded = true ↔
      ∃ err chunks, o = UploadOutcome.response true err chunks)
    ∧ (resetRAG s ResetOutcome.ok).isUploaded = false := by
  refine ⟨?_, rfl⟩
  cases o with
  | response succ err chunks =>
    cases succ <;> simp [handleFileUpload, h]
  | transportFailure => simp [handleFileUpload, h]

/-- Witness for C4 (amended) at concrete inputs. -/
theorem upload_flag_iff_success_witness :
    (handleFileUpload ragSelected (UploadOutcome.response true none (some 3))).1.isUploaded = true
    ∧ (handleFileUpload ragSelected
        (UploadOutcome.response false (some "bad") none)).1.isUploaded = false
    ∧ (resetRAG ragReady ResetOutcome.ok).isUploaded = false := by
  refine ⟨?_, ?_, ?_⟩
  · exact (upload_flag_iff_success ragSelected pdfFile _ rfl).1.mpr ⟨none, some 3, rfl⟩
  · have h := (upload_flag_iff_success ragSelected pdfFile
      (UploadOutcome.response false (some "bad") none) rfl).1
    by_contra hb
    rcases h.mp (by revert hb; cases hx : (handleFileUpload ragSelected
      (UploadOutcome.response false (some "bad") none)).1.isUploaded <;> simp) with ⟨e, c, hc⟩
    cases hc
  · exact (upload_flag_iff_success ragReady pdfFile UploadOutcome.transportFailure rfl).2

/-- Counterexample to C5: in the layout.tsx RAGChat variant, a structurally
successful response carrying error text Y (and no answer field) leaves the
rendered answer slot empty — the non-empty error text Y is silently
dropped instead of being displayed verbatim or warning-prefixed. -/
theorem rag_chat_error_dropped_cex :
    displayedAnswerLayout (handleRAGChatLayout ragReadyLayout (ChatOutcome.response none (some "Y"))) = ""
    ∧ ("Y" : String) ≠ "" := by
  exact ⟨by decide, by decide⟩

/-- C5 (amended): on a structurally successful response with a non-empty
error field Y and no answer, the askQuestion variants display Y verbatim and
the part_003 RAG chat displays the fixed prefixed form "Error: " ++ Y; the
layout.tsx RAGChat variant, however, silently drops the error text (see the
counterexample). -/
theorem error_text_surfaced (sh : HomeState) (sr : RagState) (y : String)
    (hy : y ≠ "") (hq : jsTrim sh.question ≠ "") (hr : jsTrim sr.question ≠ "") :
    (askQuestion sh (AskOutcome.response none (some y))).1.answer = y
    ∧ (handleRAGChat sr (ChatOutcome.response none (some y))).1.answer = "Error: " ++ y := by
  constructor
  · unfold askQuestion; simp [hq, jsTruthy, hy]
  · unfold handleRAGChat; simp [hr, jsTruthy, hy]

/-- Witness for C5 (amended) at concrete inputs. -/
theorem error_text_surfaced_witness :
    (askQuestion homeWitness (AskOutcome.response none (some "Y"))).1.answer = "Y"
    ∧ (handleRAGChat ragReady (ChatOutcome.response none (some "Y"))).1.answer = "Error: Y" := by
  have h := error_text_surfaced homeWitness ragReady "Y" (by decide) (by decide) (by decide)
  exact ⟨h.1, h.2⟩

/-- Counterexample to C7: the ask request body built by the sendMessage
variant embedded in src/ACTIVITY-1.md carries the q field but no api_key
field at all — that ask request omits the credential field. -/
theorem send_message_omits_api_key_cex :
    (sendMessageBody "hi").lookup "q" = some (JsonVal.str "hi")
    ∧ (sendMessageBody "hi").lookup "api_key" = none := by
  exact ⟨by decide, by decide⟩

/-- C7 (amended): every request issued by the askQuestion handler carries the
api_key field, equal to the stored credential verbatim when it is non-empty
and null otherwise; the sendMessage variant embedded in src/ACTIVITY-1.md
instead omits the field entirely (see the counterexample). -/
theorem ask_request_carries_api_key (s : HomeState) (o : AskOutcome)
    (r : AskRequest) (hr : r ∈ (askQuestion s o).2) :
    r.body.lookup "api_key"
      = some (if s.apiKey = "" then JsonVal.null else JsonVal.str s.apiKey) := by
  have hreq : r = askRequestOf s := by
    unfold askQuestion at hr
    by_cases h : jsTrim s.question = ""
    · simp [h] at hr
    · cases o <;> simp [h] at hr <;> exact hr
  subst hreq
  by_cases hk : s.apiKey = "" <;> simp [askRequestOf, askBody, List.lookup, hk]

/-- Witness for C7 (amended): the one request of a concrete ask action
carries the stored credential verbatim. -/
theorem ask_request_carries_api_key_witness :
    (askRequestOf homeWitness).body.lookup "api_key" = some (JsonVal.str "sk-test") := by
  have h := ask_request_carries_api_key homeWitness AskOutcome.transportFailure
    (askRequestOf homeWitness) (by decide)
  simpa using h

/-- C8: saving a non-empty credential and re-running the load routine yields
exactly the saved value (the store now maps the fixed key to it), and saving
an empty credential performs no write at all, so it never overwrites a
previously saved non-empty value. -/
theorem save_load_round_trip (store : List (String × String)) (v : String)
    (s : HomeState) (hv : v ≠ "") :
    (loadApiKey (saveApiKey store v) s).apiKey = v
    ∧ getItem (saveApiKey store v) storageKey = some v
    ∧ saveApiKey store "" = store := by
  have hg : getItem (saveApiKey store v) storageKey = some v := by
    simp [saveApiKey, hv, setItem, getItem, List.lookup]
  refine ⟨?_, hg, by simp [saveApiKey]⟩
  unfold loadApiKey
  rw [hg]
  simp [hv]

/-- Witness for C8 at a concrete store holding a previous value. -/
theorem save_load_round_trip_witness :
    (loadApiKey (saveApiKey [(storageKey, "old")] "sk-new") homeBlank).apiKey = "sk-new"
    ∧ saveApiKey [(storageKey, "old")] "" = [(storageKey, "old")] := by
  have h := save_load_round_trip [(storageKey, "old")] "sk-new" homeBlank (by decide)
  exact ⟨h.1, h.2.2⟩

/-- Counterexample to C9: copyToClipboard awaits the clipboard write with no
try/catch, so a rejected write is not contained by the handler — the handler
resolves to an escaped error instead of a normal state. -/
theorem copy_to_clipboard_escapes_cex :
    copyToClipboard ClipboardOutcome.failure = Except.error () := rfl

/-- C9 (amended): the network-action handlers — ask, upload, RAG chat, reset
— each contain their own failure: on a transport failure they terminate in a
normal state surfacing a fixed fallback (reset leaves the state unchanged)
with the busy flag clear.  copyToClipboard alone has no catch: its failure
outcome escapes the handler as a rejected promise (reported by the browser,
not a page crash). -/
theorem handlers_contain_failures (sh : HomeState) (sr : RagState)
    (hq : jsTrim sh.question ≠ "") (hf : sr.file ≠ none)
    (hr : jsTrim sr.question ≠ "") :
    ((askQuestion sh AskOutcome.transportFailure).1.answer = askFallback
      ∧ (askQuestion sh AskOutcome.transportFailure).1.loading = false)
    ∧ ((handleFileUpload sr UploadOutcome.transportFailure).1.uploadStatus = uploadFallback
      ∧ (handleFileUpload sr UploadOutcome.transportFailure).1.loading = false)
    ∧ ((handleRAGChat sr ChatOutcome.transportFailure).1.answer = chatFallback
      ∧ (handleRAGChat sr ChatOutcome.transportFailure).1.loading = false)
    ∧ resetRAG sr ResetOutcome.transportFailure = sr
    ∧ copyToClipboard ClipboardOutcome.failure = Except.error () := by
  obtain ⟨f, hfe⟩ := Option.ne_none_iff_exists'.mp hf
  refine ⟨?_, ?_, ?_, rfl, rfl⟩
  · unfold askQuestion; simp [hq]
  · unfold handleFileUpload; simp [hfe]
  · unfold handleRAGChat; simp [hr]

/-- Witness for C9 (amended) at concrete states. -/
theorem handlers_contain_failures_witness :
    (askQuestion homeWitness AskOutcome.transportFailure).1.answer = askFallback
    ∧ (handleFileUpload ragReady UploadOutcome.transportFailure).1.uploadStatus = uploadFallback
    ∧ (handleRAGChat ragReady ChatOutcome.transportFailure).1.answer = chatFallback
    ∧ resetRAG ragReady ResetOutcome.transportFailure = ragReady := by
  have h := handlers_contain_failures homeWitness ragReady
    (by decide) (by decide) (by decide)
  exact ⟨h.1.1, h.2.1.1, h.2.2.1.1, h.2.2.2.1⟩

/-- The upload handler never changes the selected file. -/
theorem handleFileUpload_file_eq (s : RagState) (o : UploadOutcome) :
    (handleFileUpload s o).1.file = s.file := by
  unfold handleFileUpload
  cases hf : s.file with
  | none => simp [hf]
  | some f =>
    cases o with
    | response succ err chunks => cases succ <;> simp [hf]
    | transportFailure => simp [hf]

/-- The RAG chat handler never changes the selected file. -/
theorem handleRAGChat_file_eq (s : RagState) (o : ChatOutcome) :
    (handleRAGChat s o).1.file = s.file := by
  unfold handleRAGChat
  by_cases h : jsTrim s.question = ""
  · simp [h]
  · cases o with
    | response ans err =>
      by_cases ha : jsTruthy ans <;> by_cases he : jsTruthy err <;> simp [h, ha, he]
    | transportFailure => simp [h]

/-- Every page event preserves the selected-file invariant. -/
theorem ragStep_preserves_fileInv (s : RagState) (e : RagEvent)
    (hs : fileInv s) : fileInv (ragStep s e) := by
  cases e with
  | select sel =>
    cases sel with
    | none => exact hs
    | some f =>
      by_cases hp : f.mimeType = "application/pdf"
      · intro g hg
        simp [ragStep, handleFileChange, hp] at hg
        rw [← hg]
        exact hp
      · simpa [ragStep, handleFileChange, hp] using hs
  | upload o =>
    intro g hg
    apply hs
    rw [← handleFileUpload_file_eq s o]
    exact hg
  | chat o =>
    intro g hg
    apply hs
    rw [← handleRAGChat_file_eq s o]
    exact hg
  | reset o =>
    cases o with
    | ok => intro g hg; simp [ragStep, resetRAG] at hg
    | transportFailure => exact hs

/-- The selected-file invariant is preserved along any event sequence. -/
theorem foldl_preserves_fileInv (evs : List RagEvent) (s : RagState)
    (hs : fileInv s) : fileInv (evs.foldl ragStep s) := by
  induction evs generalizing s with
  | nil => exact hs
  | cons e rest ih => exact ih _ (ragStep_preserves_fileInv s e hs)

/-- C10: from the initial state, along any sequence of page events, the
selected-file state is always null or a file of MIME type application/pdf;
selecting a file of any other type leaves the state unchanged (only an alert
is shown); and every file the upload handler submits from a reachable state
is a PDF. -/
theorem selected_file_always_pdf (evs : List RagEvent) (s : RagState)
    (f g : FileMeta) (o : UploadOutcome)
    (hnp : f.mimeType ≠ "application/pdf")
    (hg : g ∈ (handleFileUpload (runRag evs) o).2) :
    fileInv (runRag evs)
    ∧ handleFileChange s (some f) = s
    ∧ g.mimeType = "application/pdf" := by
  have hinv : fileInv (runRag evs) := by
    apply foldl_preserves_fileInv
    intro f0 h0
    simp [initRagState] at h0
  refine ⟨hinv, by simp [handleFileChange, hnp], ?_⟩
  unfold handleFileUpload at hg
  cases hfile : (runRag evs).file with
  | none => simp [hfile] at hg
  | some f0 =>
    have hgf : g = f0 := by
      cases o with
      | response succ err chunks =>
        cases succ <;> simp [hfile] at hg <;> exact hg
      | transportFailure => simp [hfile] at hg; exact hg
    rw [hgf]
    exact hinv f0 hfile

/-- Witness for C10 at concrete inputs: selecting a text file changes
nothing, and the file uploaded after selecting a concrete PDF is that PDF. -/
theorem selected_file_always_pdf_witness :
    handleFileChange initRagState (some txtFile) = initRagState
    ∧ pdfFile.mimeType = "application/pdf" := by
  have h := selected_file_always_pdf [RagEvent.select (some pdfFile)] initRagState
    txtFile pdfFile UploadOutcome.transportFailure (by decide) (by decide)
  exact ⟨h.2.1, h.2.2⟩
